import Mathlib

/-!
Shallow embedding of the BookCars tracking gateway:
 - src/backend/src/services/traccarApi.ts    (provider client shapes, normalizePosition)
 - src/backend/src/controllers/trackingController.ts
     (enforceRateLimit, getCarTracking, getFleetTracking)

Times are milliseconds as `Nat` (JS `Date.now()`); JS numbers that only
flow through the code (latitudes, speeds, ...) are `Rat`; optional / nullable
fields are `Option`; the provider HTTP client is an oracle function returning
`Except TraccarErr` (a thrown `TRACCAR_NOT_CONFIGURED` error is
`TraccarErr.unconfigured`, any other thrown error is `TraccarErr.other`,
a 404 answer is `Except.ok none`).
JS truthiness is modelled explicitly where the source relies on it:
`!n` on a number is true for `0`, `!s` on a string is true for `""`,
and `a || b` returns `b` when `a` is falsy.
-/

deriving instance DecidableEq for Except

namespace Tracking

/-- Provider device record (`TraccarDevice` in traccarApi.ts). -/
structure TraccarDevice where
  id : Int
  uniqueId : Option String
  positionId : Option Int
  name : Option String
deriving Repr, DecidableEq

/-- Raw provider position record (`TraccarPosition` in traccarApi.ts). -/
structure TraccarPosition where
  id : Int
  deviceId : Int
  latitude : Rat
  longitude : Rat
  speed : Option Rat
  course : Option Rat
  fixTime : Option String
  deviceTime : Option String
  serverTime : Option String
  address : Option String
deriving Repr, DecidableEq

/-- Normalized position (`NormalizedPosition` in traccarApi.ts). -/
structure NormalizedPosition where
  lat : Rat
  lon : Rat
  speed : Option Rat
  course : Option Rat
  fixTime : Option String
  address : Option String
deriving Repr, DecidableEq

/-- JS truthiness of an optional string: `undefined`, `null` and `""` are falsy. -/
def strTruthy : Option String → Bool
  | none => false
  | some s => s ≠ ""

/-- JS `a || b` on optional strings: yields `b` whenever `a` is falsy. -/
def jsOrStr (a b : Option String) : Option String :=
  if strTruthy a then a else b

/-- `normalizePosition` from traccarApi.ts:
`fixTime: position.fixTime || position.deviceTime || position.serverTime`. -/
def normalizePosition (position : TraccarPosition) : NormalizedPosition :=
  { lat := position.latitude
    lon := position.longitude
    speed := position.speed
    course := position.course
    fixTime := jsOrStr position.fixTime (jsOrStr position.deviceTime position.serverTime)
    address := position.address }

/-- Thrown provider-client errors, as discriminated by the controllers:
`err instanceof Error && err.message === TRACCAR_NOT_CONFIGURED` vs anything else. -/
inductive TraccarErr
  | unconfigured
  | other
deriving Repr, DecidableEq

/-- Provider oracle for `traccarApi.getDevice`: `Except.error` models a thrown
error, `Except.ok none` models the 404 → `null` path. -/
abbrev GetDevice := Int → Except TraccarErr (Option TraccarDevice)

/-- Provider oracle for the raw GET in `traccarApi.getPosition` (before
`normalizePosition` is applied). -/
abbrev GetRawPosition := Int → Except TraccarErr (Option TraccarPosition)

/-- `traccarApi.getPosition`: fetch the raw record, `null` stays `null`,
otherwise normalize. -/
def getPosition (getRawPos : GetRawPosition) (positionId : Int) :
    Except TraccarErr (Option NormalizedPosition) :=
  match getRawPos positionId with
  | Except.error e => Except.error e
  | Except.ok none => Except.ok none
  | Except.ok (some raw) => Except.ok (some (normalizePosition raw))

/-- `env.TRACCAR_MIN_POLL_INTERVAL || 5` (trackingController.ts line 40):
a falsy (0 / unset) configured value falls back to 5 seconds. -/
def pollIntervalSeconds (envMinPollInterval : Nat) : Nat :=
  if envMinPollInterval = 0 then 5 else envMinPollInterval

/-- The module-level `lastRequestByAdmin` record, made explicit:
partition key ↦ timestamp (ms) of the last accepted request. -/
def Ledger := String → Option Nat

def Ledger.empty : Ledger := fun _ => none

def Ledger.update (key : String) (now : Nat) (L : Ledger) : Ledger :=
  fun k => if k = key then some now else L k

/-- The partition key `` `${adminId}:${scope}` ``. -/
def rlKey (adminId scope : String) : String := adminId ++ ":" ++ scope

/-- `enforceRateLimit` from trackingController.ts, with `Date.now()` and the
module-level ledger lifted to parameters.  The source guard is
`if (last && now - last < pollIntervalMs) return false`: a stored `last` of
`0` is falsy in JS, so it does NOT trigger the guard. -/
def enforceRateLimit (pollIntervalMs : Nat) (adminId scope : String)
    (now : Nat) (L : Ledger) : Bool × Ledger :=
  let key := rlKey adminId scope
  match L key with
  | some last =>
      if last ≠ 0 ∧ now - last < pollIntervalMs then
        (false, L)
      else
        (true, Ledger.update key now L)
  | none => (true, Ledger.update key now L)

/-- Tracking status taxonomy (`TrackingStatus` in trackingController.ts).
`ok` is spelled `okS` to avoid clashing with `Except.ok` in patterns. -/
inductive TrackingStatus
  | okS
  | no_fix_yet
  | not_mapped
  | device_not_found
  | car_not_found
  | traccar_not_configured
  | traccar_error
  | rate_limited
deriving Repr, DecidableEq

/-- A lean vehicle record as selected by the controllers
(`name licensePlate traccarDeviceId traccarUniqueId`, plus `_id`). -/
structure Car where
  id : String
  name : String
  licensePlate : Option String
  traccarDeviceId : Option Int
  traccarUniqueId : Option String
deriving Repr, DecidableEq

/-- `TrackedCar` response shape. -/
structure TrackedCar where
  carId : String
  name : String
  licensePlate : Option String
  traccarDeviceId : Option Int
  traccarUniqueId : Option String
deriving Repr, DecidableEq

/-- `mapCar` from trackingController.ts (`?? null` collapses to the same
`Option`). -/
def mapCar (car : Car) : TrackedCar :=
  { carId := car.id
    name := car.name
    licensePlate := car.licensePlate
    traccarDeviceId := car.traccarDeviceId
    traccarUniqueId := car.traccarUniqueId }

/-- A single-vehicle HTTP response: the status code passed to `res.status`
(`res.json` is 200) together with the `CarTrackingPayload` fields. -/
structure CarResponse where
  httpStatus : Nat
  status : TrackingStatus
  car : Option TrackedCar
  position : Option NormalizedPosition
  pollAfterSeconds : Nat
deriving Repr, DecidableEq

/-- The body of the `try` block of `getCarTracking` after the vehicle record
was found (trackingController.ts lines 107-162); `Except.error` models an
error thrown by the provider client and caught at lines 163-183.
The source tests `!car.traccarDeviceId` (twice, lines 107 and 117, the first
conjoined with `!car.traccarUniqueId`): both send `not_mapped`, and both are
true exactly when the device id is absent, `null`, or the falsy number `0`,
regardless of the unique id.  Likewise `!device.positionId` (line 138) is
true for an absent pointer and for the falsy pointer `0`. -/
def carResolve (interval : Nat) (getDev : GetDevice) (getRawPos : GetRawPosition)
    (car : Car) : Except TraccarErr CarResponse :=
  match car.traccarDeviceId with
  | none =>
      Except.ok ⟨404, TrackingStatus.not_mapped, some (mapCar car), none, interval⟩
  | some did =>
      if did = 0 then
        Except.ok ⟨404, TrackingStatus.not_mapped, some (mapCar car), none, interval⟩
      else
        match getDev did with
        | Except.error e => Except.error e
        | Except.ok none =>
            Except.ok ⟨404, TrackingStatus.device_not_found, some (mapCar car), none, interval⟩
        | Except.ok (some device) =>
            match device.positionId with
            | none =>
                Except.ok ⟨200, TrackingStatus.no_fix_yet, some (mapCar car), none, interval⟩
            | some pid =>
                if pid = 0 then
                  Except.ok ⟨200, TrackingStatus.no_fix_yet, some (mapCar car), none, interval⟩
                else
                  match getPosition getRawPos pid with
                  | Except.error e => Except.error e
                  | Except.ok none =>
                      Except.ok ⟨200, TrackingStatus.no_fix_yet, some (mapCar car), none, interval⟩
                  | Except.ok (some position) =>
                      Except.ok ⟨200, TrackingStatus.okS, some (mapCar car), some position, interval⟩

/-- `getCarTracking` from trackingController.ts.  `carIdValid` is the result
of `helper.isValidObjectId(carId)`; `findCar` is the result of the
`Car.findById` lookup; the returned ledger is the rate limiter's state after
the request. -/
def getCarTracking (interval : Nat) (carIdValid : Bool) (carId adminId : String)
    (now : Nat) (L : Ledger) (findCar : Option Car)
    (getDev : GetDevice) (getRawPos : GetRawPosition) : CarResponse × Ledger :=
  if carIdValid = false then
    (⟨400, TrackingStatus.car_not_found, none, none, interval⟩, L)
  else
    let rl := enforceRateLimit (interval * 1000) adminId ("car-" ++ carId) now L
    if rl.1 = false then
      (⟨429, TrackingStatus.rate_limited, none, none, interval⟩, rl.2)
    else
      match findCar with
      | none => (⟨404, TrackingStatus.car_not_found, none, none, interval⟩, rl.2)
      | some car =>
          match carResolve interval getDev getRawPos car with
          | Except.ok resp => (resp, rl.2)
          | Except.error TraccarErr.unconfigured =>
              (⟨503, TrackingStatus.traccar_not_configured, none, none, interval⟩, rl.2)
          | Except.error TraccarErr.other =>
              (⟨502, TrackingStatus.traccar_error, none, none, interval⟩, rl.2)

/-- One per-vehicle entry of the fleet payload
(`TrackedCar & { status; position? }`). -/
structure FleetEntry where
  car : TrackedCar
  status : TrackingStatus
  position : Option NormalizedPosition
deriving Repr, DecidableEq

/-- A fleet HTTP response (`FleetTrackingPayload` plus the status code). -/
structure FleetResponse where
  httpStatus : Nat
  status : TrackingStatus
  pollAfterSeconds : Nat
  cars : List FleetEntry
deriving Repr, DecidableEq

/-- The `Car.find({ traccarDeviceId: { $exists: true, $ne: null } })` query:
keeps exactly the cars whose `traccarDeviceId` is present and non-null (in
Mongo, `$ne: null` excludes both `null` and missing fields), paired with the
value the loop then force-casts with `as number`. -/
def fleetQuery (allCars : List Car) : List (Car × Int) :=
  allCars.filterMap fun c =>
    match c.traccarDeviceId with
    | some did => some (c, did)
    | none => none

/-- The body of the per-vehicle `try` block in `getFleetTracking`
(trackingController.ts lines 215-232): device fetch, `positionId` falsy
check (`0` included), position fetch. -/
def fleetCarResolve (getDev : GetDevice) (getRawPos : GetRawPosition) (did : Int) :
    Except TraccarErr (TrackingStatus × Option NormalizedPosition) :=
  match getDev did with
  | Except.error e => Except.error e
  | Except.ok none => Except.ok (TrackingStatus.device_not_found, none)
  | Except.ok (some device) =>
      match device.positionId with
      | none => Except.ok (TrackingStatus.no_fix_yet, none)
      | some pid =>
          if pid = 0 then
            Except.ok (TrackingStatus.no_fix_yet, none)
          else
            match getPosition getRawPos pid with
            | Except.error e => Except.error e
            | Except.ok none => Except.ok (TrackingStatus.no_fix_yet, none)
            | Except.ok (some position) => Except.ok (TrackingStatus.okS, some position)

/-- The `for (const car of cars)` loop of `getFleetTracking`: pushes one entry
per vehicle in order; a caught `TRACCAR_NOT_CONFIGURED` error aborts the
whole request (`none`); any other caught error records a `traccar_error`
entry for that vehicle and continues. -/
def fleetLoop (getDev : GetDevice) (getRawPos : GetRawPosition) :
    List (Car × Int) → Option (List FleetEntry)
  | [] => some []
  | (car, did) :: rest =>
      match fleetCarResolve getDev getRawPos did with
      | Except.error TraccarErr.unconfigured => none
      | Except.error TraccarErr.other =>
          (fleetLoop getDev getRawPos rest).map
            (fun entries => ⟨mapCar car, TrackingStatus.traccar_error, none⟩ :: entries)
      | Except.ok (st, pos) =>
          (fleetLoop getDev getRawPos rest).map
            (fun entries => ⟨mapCar car, st, pos⟩ :: entries)

/-- `getFleetTracking` from trackingController.ts: rate-limit gate on scope
`"fleet"`, mapped-vehicle query, per-vehicle loop; a loop abort sends
top-level `traccar_not_configured` (503) with an empty list, a completed
loop sends top-level `ok` (200). -/
def getFleetTracking (interval : Nat) (adminId : String) (now : Nat) (L : Ledger)
    (allCars : List Car) (getDev : GetDevice) (getRawPos : GetRawPosition) :
    FleetResponse × Ledger :=
  let rl := enforceRateLimit (interval * 1000) adminId "fleet" now L
  if rl.1 = false then
    (⟨429, TrackingStatus.rate_limited, interval, []⟩, rl.2)
  else
    match fleetLoop getDev getRawPos (fleetQuery allCars) with
    | none => (⟨503, TrackingStatus.traccar_not_configured, interval, []⟩, rl.2)
    | some entries => (⟨200, TrackingStatus.okS, interval, entries⟩, rl.2)

/-! ## Rate limiter lemmas -/

theorem enforceRateLimit_of_none (ms : Nat) (a s : String) (now : Nat) (L : Ledger)
    (h : L (rlKey a s) = none) :
    enforceRateLimit ms a s now L = (true, Ledger.update (rlKey a s) now L) := by
  simp [enforceRateLimit, h]

theorem enforceRateLimit_of_blocked (ms : Nat) (a s : String) (now : Nat) (L : Ledger)
    (last : Nat) (h : L (rlKey a s) = some last) (h0 : last ≠ 0)
    (hlt : now - last < ms) :
    enforceRateLimit ms a s now L = (false, L) := by
  simp [enforceRateLimit, h, h0, hlt]

theorem enforceRateLimit_of_pass (ms : Nat) (a s : String) (now : Nat) (L : Ledger)
    (last : Nat) (h : L (rlKey a s) = some last) (hc : ¬(last ≠ 0 ∧ now - last < ms)) :
    enforceRateLimit ms a s now L = (true, Ledger.update (rlKey a s) now L) := by
  simp only [enforceRateLimit, h]
  rw [if_neg hc]

theorem enforceRateLimit_fst_congr (ms : Nat) (a s : String) (now : Nat) (L1 L2 : Ledger)
    (h : L1 (rlKey a s) = L2 (rlKey a s)) :
    (enforceRateLimit ms a s now L1).1 = (enforceRateLimit ms a s now L2).1 := by
  simp only [enforceRateLimit]
  rw [h]
  cases L2 (rlKey a s) with
  | none => rfl
  | some last => by_cases hc : last ≠ 0 ∧ now - last < ms <;> simp [hc]

theorem rlKey_right_inj (a s1 s2 : String) (h : rlKey a s1 = rlKey a s2) : s1 = s2 := by
  have hd := congrArg String.data h
  simp only [rlKey, String.data_append, List.append_assoc] at hd
  exact String.ext (List.append_cancel_left (List.append_cancel_left hd))

/-! ## C1: rate limiter admit/record semantics -/

/-- C1 counterexample.  The claim says that when a prior accepted time exists
for the key and `now` minus that prior time is below the minimum interval
(5 s = 5000 ms by default), `admit` returns `false`.  Starting from an empty
ledger, a request at time 0 is admitted and records 0; a second request for
the same key at time 1 (elapsed 1 ms < 5000 ms) is nevertheless admitted,
because the source guard `if (last && now - last < pollIntervalMs)` treats
the recorded time `0` as falsy. -/
theorem C1_counterexample :
    (enforceRateLimit 5000 "a" "s" 0 Ledger.empty).1 = true
    ∧ (enforceRateLimit 5000 "a" "s" 0 Ledger.empty).2 (rlKey "a" "s") = some 0
    ∧ (1 : Nat) - 0 < 5000
    ∧ (enforceRateLimit 5000 "a" "s" 1 (enforceRateLimit 5000 "a" "s" 0 Ledger.empty).2).1
        = true := by
  refine ⟨rfl, ?_, by decide, ?_⟩ <;> rfl

/-- C1 (amended): for every partition key and request time `now`, `admit`
returns `true` and records `now` as the key's last-accepted time iff no prior
accepted time exists for the key, or the prior accepted time is the falsy
timestamp `0`, or `now` minus the prior accepted time is ≥ the configured
minimum interval; otherwise it returns `false` and the ledger is unchanged.
Consequently two same-key requests within the interval have the second
rejected provided the first request's time is nonzero, and two same-key
requests on a fresh key spaced ≥ the interval apart are both admitted. -/
theorem C1_rate_limiter_amended (ms : Nat) (adminId scope : String) (now : Nat)
    (L : Ledger) :
    (((enforceRateLimit ms adminId scope now L).1 = true
        ∧ (enforceRateLimit ms adminId scope now L).2 (rlKey adminId scope) = some now
        ∧ ∀ k, k ≠ rlKey adminId scope →
            (enforceRateLimit ms adminId scope now L).2 k = L k)
      ↔ (L (rlKey adminId scope) = none
          ∨ L (rlKey adminId scope) = some 0
          ∨ ∃ last, L (rlKey adminId scope) = some last ∧ ms ≤ now - last))
    ∧ ((enforceRateLimit ms adminId scope now L).1 = false
        → (enforceRateLimit ms adminId scope now L).2 = L)
    ∧ (∀ now1 now2 : Nat, 0 < now1
        → (enforceRateLimit ms adminId scope now1 L).1 = true
        → now2 - now1 < ms
        → (enforceRateLimit ms adminId scope now2
            (enforceRateLimit ms adminId scope now1 L).2).1 = false)
    ∧ (∀ now1 now2 : Nat, L (rlKey adminId scope) = none
        → ms ≤ now2 - now1
        → (enforceRateLimit ms adminId scope now1 L).1 = true
          ∧ (enforceRateLimit ms adminId scope now2
              (enforceRateLimit ms adminId scope now1 L).2).1 = true) := by
  have admit_cases : ∀ (t : Nat),
      (enforceRateLimit ms adminId scope t L).1 = true
      → enforceRateLimit ms adminId scope t L
          = (true, Ledger.update (rlKey adminId scope) t L) := by
    intro t ht
    cases hL : L (rlKey adminId scope) with
    | none => exact enforceRateLimit_of_none ms adminId scope t L hL
    | some last =>
        by_cases hc : last ≠ 0 ∧ t - last < ms
        · rw [enforceRateLimit_of_blocked ms adminId scope t L last hL hc.1 hc.2] at ht
          simp at ht
        · exact enforceRateLimit_of_pass ms adminId scope t L last hL hc
  refine ⟨?_, ?_, ?_, ?_⟩
  · constructor
    · rintro ⟨h1, _h2, _h3⟩
      cases hL : L (rlKey adminId scope) with
      | none => exact Or.inl rfl
      | some last =>
          by_cases hc : last ≠ 0 ∧ now - last < ms
          · rw [enforceRateLimit_of_blocked ms adminId scope now L last hL hc.1 hc.2] at h1
            simp at h1
          · rcases Decidable.not_and_iff_or_not.mp hc with h0 | hge
            · exact Or.inr (Or.inl (congrArg some (Decidable.not_not.mp h0)))
            · exact Or.inr (Or.inr ⟨last, rfl, Nat.le_of_not_lt hge⟩)
    · intro h
      have heq : enforceRateLimit ms adminId scope now L
          = (true, Ledger.update (rlKey adminId scope) now L) := by
        rcases h with hL | hL | ⟨last, hL, hge⟩
        · exact enforceRateLimit_of_none ms adminId scope now L hL
        · exact enforceRateLimit_of_pass ms adminId scope now L 0 hL (by simp)
        · exact enforceRateLimit_of_pass ms adminId scope now L last hL
            (by rintro ⟨_, hlt⟩; exact absurd hge (Nat.not_le_of_lt hlt))
      rw [heq]
      refine ⟨rfl, by simp [Ledger.update], ?_⟩
      intro k hk
      simp [Ledger.update, hk]
  · intro h
    cases hL : L (rlKey adminId scope) with
    | none =>
        rw [enforceRateLimit_of_none ms adminId scope now L hL] at h
        simp at h
    | some last =>
        by_cases hc : last ≠ 0 ∧ now - last < ms
        · rw [enforceRateLimit_of_blocked ms adminId scope now L last hL hc.1 hc.2]
        · rw [enforceRateLimit_of_pass ms adminId scope now L last hL hc] at h
          simp at h
  · intro now1 now2 hpos h1 hlt
    rw [admit_cases now1 h1]
    exact congrArg Prod.fst
      (enforceRateLimit_of_blocked ms adminId scope now2 _ now1
        (by simp [Ledger.update]) (Nat.pos_iff_ne_zero.mp hpos) hlt)
  · intro now1 now2 hL hge
    have h1 : (enforceRateLimit ms adminId scope now1 L).1 = true := by
      rw [enforceRateLimit_of_none ms adminId scope now1 L hL]
    refine ⟨h1, ?_⟩
    rw [admit_cases now1 h1]
    rw [enforceRateLimit_of_pass ms adminId scope now2 _ now1 (by simp [Ledger.update])
      (by rintro ⟨_, hlt⟩; exact absurd hge (Nat.not_le_of_lt hlt))]

/-- Witness for C1: concrete instance of the amended theorem — a first
request at 1000 ms on a fresh key is admitted and a second one 1000 ms later
(within the 5000 ms interval) is rejected. -/
theorem C1_rate_limiter_amended_witness :
    (enforceRateLimit 5000 "a" "s" 2000
      (enforceRateLimit 5000 "a" "s" 1000 Ledger.empty).2).1 = false :=
  (C1_rate_limiter_amended 5000 "a" "s" 0 Ledger.empty).2.2.1 1000 2000
    (by decide) (by rfl) (by decide)

/-! ## C7: rate-limit scope independence -/

/-- C7: distinct scopes for the same caller are independent partition keys:
a request for scope `s1` (admitted or not) never changes the admit decision
for scope `s2`; on fresh keys the same caller issuing both scopes at the same
instant is admitted for both.  The last two conjuncts discharge the claim's
scope shapes: two different vehicle ids give different scopes
(`"car-" ++ id`), and a vehicle scope is never the fleet scope `"fleet"`. -/
theorem C7_scope_independence (ms : Nat) (adminId s1 s2 : String) (now : Nat)
    (L : Ledger) (hne : s1 ≠ s2) :
    ((enforceRateLimit ms adminId s2 now
        (enforceRateLimit ms adminId s1 now L).2).1
      = (enforceRateLimit ms adminId s2 now L).1)
    ∧ (L (rlKey adminId s1) = none → L (rlKey adminId s2) = none →
        (enforceRateLimit ms adminId s1 now L).1 = true
        ∧ (enforceRateLimit ms adminId s2 now
            (enforceRateLimit ms adminId s1 now L).2).1 = true)
    ∧ (∀ id1 id2 : String, id1 ≠ id2 → "car-" ++ id1 ≠ "car-" ++ id2)
    ∧ (∀ id : String, "car-" ++ id ≠ "fleet") := by
  have hkey : rlKey adminId s2 ≠ rlKey adminId s1 :=
    fun h => hne (rlKey_right_inj adminId s2 s1 h).symm
  have hsame : (enforceRateLimit ms adminId s1 now L).2 (rlKey adminId s2)
      = L (rlKey adminId s2) := by
    cases hL : L (rlKey adminId s1) with
    | none =>
        rw [enforceRateLimit_of_none ms adminId s1 now L hL]
        simp [Ledger.update, hkey]
    | some last =>
        by_cases hc : last ≠ 0 ∧ now - last < ms
        · rw [enforceRateLimit_of_blocked ms adminId s1 now L last hL hc.1 hc.2]
        · rw [enforceRateLimit_of_pass ms adminId s1 now L last hL hc]
          simp [Ledger.update, hkey]
  have hcongr := enforceRateLimit_fst_congr ms adminId s2 now
    (enforceRateLimit ms adminId s1 now L).2 L hsame
  refine ⟨hcongr, ?_, ?_, ?_⟩
  · intro h1 h2
    have hfst : (enforceRateLimit ms adminId s1 now L).1 = true := by
      rw [enforceRateLimit_of_none ms adminId s1 now L h1]
    have hsnd : (enforceRateLimit ms adminId s2 now L).1 = true := by
      rw [enforceRateLimit_of_none ms adminId s2 now L h2]
    exact ⟨hfst, hcongr.trans hsnd⟩
  · intro id1 id2 hid h
    have hd := congrArg String.data h
    simp only [String.data_append] at hd
    exact hid (String.ext (List.append_cancel_left hd))
  · intro id h
    have hd := congrArg String.data h
    simp only [String.data_append] at hd
    simp at hd

/-- Witness for C7: scopes `"car-a"` and `"fleet"` at the same instant on a
fresh ledger — both admitted. -/
theorem C7_scope_independence_witness :
    (enforceRateLimit 5000 "admin" "car-a" 7 Ledger.empty).1 = true
    ∧ (enforceRateLimit 5000 "admin" "fleet" 7
        (enforceRateLimit 5000 "admin" "car-a" 7 Ledger.empty).2).1 = true :=
  (C7_scope_independence 5000 "admin" "car-a" "fleet" 7 Ledger.empty
    (by decide)).2.1 rfl rfl

/-! ## C2: device resolver order -/

/-- A vehicle whose provider device id is present but equal to `0`. -/
def zeroDeviceCar : Car :=
  { id := "car0", name := "Demo car", licensePlate := none,
    traccarDeviceId := some 0, traccarUniqueId := none }

/-- A provider device whose latest-position pointer is `7`. -/
def demoDevice : TraccarDevice := { id := 0, uniqueId := none, positionId := some 7, name := none }

/-- A raw provider position. -/
def demoRawPos : TraccarPosition :=
  { id := 7, deviceId := 0, latitude := 51.5, longitude := -0.12,
    speed := some 10, course := none, fixTime := some "t0",
    deviceTime := none, serverTime := none, address := none }

/-- A provider oracle that finds `demoDevice` for every device id. -/
def demoGetDevice : GetDevice := fun _ => Except.ok (some demoDevice)

/-- A provider oracle that finds `demoRawPos` for every position id. -/
def demoGetRawPos : GetRawPosition := fun _ => Except.ok (some demoRawPos)

/-- C2 counterexample.  The claim's terminal conditions: the vehicle HAS a
provider device id (`some 0`), the device fetch succeeds, the device has a
latest-position pointer, and the position fetch succeeds — so the claim
requires outcome `ok` with the normalized position.  The code instead
returns `not_mapped` with no position, because `!car.traccarDeviceId` is
true for the falsy device id `0`. -/
theorem C2_counterexample :
    zeroDeviceCar.traccarDeviceId = some 0
    ∧ demoGetDevice 0 = Except.ok (some demoDevice)
    ∧ demoDevice.positionId = some 7
    ∧ getPosition demoGetRawPos 7 = Except.ok (some (normalizePosition demoRawPos))
    ∧ carResolve 5 demoGetDevice demoGetRawPos zeroDeviceCar
        = Except.ok ⟨404, TrackingStatus.not_mapped, some (mapCar zeroDeviceCar), none, 5⟩ :=
  ⟨rfl, rfl, rfl, rfl, rfl⟩

/-- C2 (amended): resolution follows the fixed order and returns on the first
terminal condition, where an absent **or zero** provider device id yields
`not_mapped` (no position, no provider contact — the oracles `gd`, `gp` are
arbitrary in that conjunct and the result does not depend on them), a
provider "not found" on the device fetch yields `device_not_found`, an
absent **or zero** latest-position pointer yields `no_fix_yet`, a provider
"not found" on the position fetch yields `no_fix_yet`, and otherwise the
result is `ok` with the normalized position. -/
theorem C2_device_resolver_amended (i : Nat) (gd : GetDevice) (gp : GetRawPosition)
    (car : Car) :
    ((car.traccarDeviceId = none ∨ car.traccarDeviceId = some 0) →
        carResolve i gd gp car
          = Except.ok ⟨404, TrackingStatus.not_mapped, some (mapCar car), none, i⟩)
    ∧ (∀ did, car.traccarDeviceId = some did → did ≠ 0 → gd did = Except.ok none →
        carResolve i gd gp car
          = Except.ok ⟨404, TrackingStatus.device_not_found, some (mapCar car), none, i⟩)
    ∧ (∀ did dev, car.traccarDeviceId = some did → did ≠ 0 →
        gd did = Except.ok (some dev) →
        (dev.positionId = none ∨ dev.positionId = some 0) →
        carResolve i gd gp car
          = Except.ok ⟨200, TrackingStatus.no_fix_yet, some (mapCar car), none, i⟩)
    ∧ (∀ did dev pid, car.traccarDeviceId = some did → did ≠ 0 →
        gd did = Except.ok (some dev) → dev.positionId = some pid → pid ≠ 0 →
        gp pid = Except.ok none →
        carResolve i gd gp car
          = Except.ok ⟨200, TrackingStatus.no_fix_yet, some (mapCar car), none, i⟩)
    ∧ (∀ did dev pid raw, car.traccarDeviceId = some did → did ≠ 0 →
        gd did = Except.ok (some dev) → dev.positionId = some pid → pid ≠ 0 →
        gp pid = Except.ok (some raw) →
        carResolve i gd gp car
          = Except.ok ⟨200, TrackingStatus.okS, some (mapCar car),
              some (normalizePosition raw), i⟩) := by
  refine ⟨?_, ?_, ?_, ?_, ?_⟩
  · rintro (h | h) <;> simp [carResolve, h]
  · intro did hdid h0 hdev
    simp [carResolve, hdid, h0, hdev]
  · rintro did dev hdid h0 hdev (hp | hp) <;>
      simp [carResolve, hdid, h0, hdev, hp]
  · intro did dev pid hdid h0 hdev hpid hp0 hpos
    simp [carResolve, getPosition, hdid, h0, hdev, hpid, hp0, hpos]
  · intro did dev pid raw hdid h0 hdev hpid hp0 hpos
    simp [carResolve, getPosition, hdid, h0, hdev, hpid, hp0, hpos]

/-- Witness for C2 (amended): a fully-successful resolution at a concrete
vehicle with device id `42` pointing at position `7`. -/
theorem C2_device_resolver_amended_witness :
    carResolve 5 (fun _ => Except.ok (some demoDevice)) demoGetRawPos
        ⟨"v1", "V1", none, some 42, none⟩
      = Except.ok ⟨200, TrackingStatus.okS,
          some (mapCar ⟨"v1", "V1", none, some 42, none⟩),
          some (normalizePosition demoRawPos), 5⟩ :=
  (C2_device_resolver_amended 5 (fun _ => Except.ok (some demoDevice)) demoGetRawPos
      ⟨"v1", "V1", none, some 42, none⟩).2.2.2.2 42 demoDevice 7 demoRawPos
    rfl (by decide) rfl rfl (by decide) rfl

/-! ## C5: single-vehicle endpoint precedence -/

/-- C5: for every request, (1) a malformed vehicle id yields `car_not_found`
with HTTP 400 before any other check — the result and the ledger are
independent of the ledger contents, the vehicle lookup and the provider
oracles, and the rate limiter is not even consulted (ledger returned
unchanged); (2) a throttled request yields `rate_limited` with HTTP 429 and
an unchanged ledger, for every possible value of the vehicle lookup — the
vehicle record is never looked up; (3) only then does a missing vehicle
record yield `car_not_found` with HTTP 404. -/
theorem C5_single_endpoint_precedence (i : Nat) (carId adminId : String) (now : Nat)
    (L : Ledger) (findCar : Option Car) (gd : GetDevice) (gp : GetRawPosition) :
    (getCarTracking i false carId adminId now L findCar gd gp
        = (⟨400, TrackingStatus.car_not_found, none, none, i⟩, L))
    ∧ ((enforceRateLimit (i * 1000) adminId ("car-" ++ carId) now L).1 = false →
        getCarTracking i true carId adminId now L findCar gd gp
          = (⟨429, TrackingStatus.rate_limited, none, none, i⟩, L))
    ∧ ((enforceRateLimit (i * 1000) adminId ("car-" ++ carId) now L).1 = true →
        getCarTracking i true carId adminId now L none gd gp
          = (⟨404, TrackingStatus.car_not_found, none, none, i⟩,
             (enforceRateLimit (i * 1000) adminId ("car-" ++ carId) now L).2)) := by
  refine ⟨rfl, ?_, ?_⟩
  · intro h
    have hL : (enforceRateLimit (i * 1000) adminId ("car-" ++ carId) now L).2 = L := by
      cases hk : L (rlKey adminId ("car-" ++ carId)) with
      | none =>
          rw [enforceRateLimit_of_none (i * 1000) adminId ("car-" ++ carId) now L hk] at h
          simp at h
      | some last =>
          by_cases hc : last ≠ 0 ∧ now - last < i * 1000
          · rw [enforceRateLimit_of_blocked (i * 1000) adminId ("car-" ++ carId)
              now L last hk hc.1 hc.2]
          · rw [enforceRateLimit_of_pass (i * 1000) adminId ("car-" ++ carId)
              now L last hk hc] at h
            simp at h
    simp [getCarTracking, h, hL]
  · intro h
    simp [getCarTracking, h]

/-- Witness for C5: on a fresh ledger the rate-limit gate admits, and a
missing vehicle record yields `car_not_found` / 404. -/
theorem C5_single_endpoint_precedence_witness :
    getCarTracking 5 true "c1" "admin" 3 Ledger.empty none demoGetDevice demoGetRawPos
      = (⟨404, TrackingStatus.car_not_found, none, none, 5⟩,
         (enforceRateLimit 5000 "admin" "car-c1" 3 Ledger.empty).2) :=
  (C5_single_endpoint_precedence 5 "c1" "admin" 3 Ledger.empty none
    demoGetDevice demoGetRawPos).2.2 rfl

/-! ## C6: position normalizer -/

/-- A raw position whose `fixTime` is the falsy empty string while
`deviceTime` is present. -/
def emptyFixTimePos : TraccarPosition :=
  { id := 1, deviceId := 1, latitude := 1, longitude := 2,
    speed := none, course := none, fixTime := some "",
    deviceTime := some "2024-01-01T00:00:00Z", serverTime := none, address := none }

/-- C6 counterexample.  The claim resolves the timestamp to "the fix time if
present"; here `fixTime` is present (the empty string) yet the normalizer
resolves to `deviceTime`, because the source `fixTime || deviceTime ||
serverTime` treats `""` as falsy. -/
theorem C6_counterexample :
    emptyFixTimePos.fixTime = some ""
    ∧ (normalizePosition emptyFixTimePos).fixTime = some "2024-01-01T00:00:00Z" :=
  ⟨rfl, rfl⟩

/-- C6 (amended): the normalized result copies latitude, longitude, optional
speed, optional course and optional address unchanged, and resolves the
single timestamp by preference order over *non-empty* values: the fix time
if present and non-empty, else the device time if present and non-empty,
else the server time (whatever it is). -/
theorem C6_normalizer_amended (p : TraccarPosition) :
    (normalizePosition p).lat = p.latitude
    ∧ (normalizePosition p).lon = p.longitude
    ∧ (normalizePosition p).speed = p.speed
    ∧ (normalizePosition p).course = p.course
    ∧ (normalizePosition p).address = p.address
    ∧ (∀ s, p.fixTime = some s → s ≠ "" → (normalizePosition p).fixTime = some s)
    ∧ (∀ s, (p.fixTime = none ∨ p.fixTime = some "") → p.deviceTime = some s →
        s ≠ "" → (normalizePosition p).fixTime = some s)
    ∧ ((p.fixTime = none ∨ p.fixTime = some "") →
        (p.deviceTime = none ∨ p.deviceTime = some "") →
        (normalizePosition p).fixTime = p.serverTime) := by
  refine ⟨rfl, rfl, rfl, rfl, rfl, ?_, ?_, ?_⟩
  · intro s hs hne
    simp [normalizePosition, jsOrStr, strTruthy, hs, hne]
  · rintro s (hf | hf) hd hne <;>
      simp [normalizePosition, jsOrStr, strTruthy, hf, hd, hne]
  · rintro (hf | hf) (hd | hd) <;>
      simp [normalizePosition, jsOrStr, strTruthy, hf, hd]

/-- Witness for C6: a position lacking `fixTime` but carrying a non-empty
`deviceTime` normalizes to that `deviceTime`. -/
theorem C6_normalizer_amended_witness :
    (normalizePosition ⟨3, 3, 1, 2, none, none, none, some "dt", some "st", none⟩).fixTime
      = some "dt" :=
  (C6_normalizer_amended ⟨3, 3, 1, 2, none, none, none, some "dt", some "st", none⟩).2.2.2.2.2.2.1
    "dt" (Or.inl rfl) rfl (by decide)

/-! ## Fleet aggregation lemmas and C3 / C4 / C10 -/

/-- A vehicle's own per-vehicle outcome: its resolution result, with any
caught non-fatal provider failure recorded as that vehicle's `traccar_error`
entry. -/
def fleetEntryOf (getDev : GetDevice) (getRawPos : GetRawPosition)
    (p : Car × Int) : FleetEntry :=
  match fleetCarResolve getDev getRawPos p.2 with
  | Except.ok (st, pos) => ⟨mapCar p.1, st, pos⟩
  | Except.error _ => ⟨mapCar p.1, TrackingStatus.traccar_error, none⟩

theorem fleetLoop_eq_map (gd : GetDevice) (gp : GetRawPosition)
    (cars : List (Car × Int))
    (h : ∀ p ∈ cars, fleetCarResolve gd gp p.2 ≠ Except.error TraccarErr.unconfigured) :
    fleetLoop gd gp cars = some (cars.map (fleetEntryOf gd gp)) := by
  induction cars with
  | nil => rfl
  | cons p rest ih =>
      obtain ⟨car, did⟩ := p
      have hrest : ∀ q ∈ rest,
          fleetCarResolve gd gp q.2 ≠ Except.error TraccarErr.unconfigured :=
        fun q hq => h q (List.mem_cons_of_mem _ hq)
      have hhead := h (car, did) (List.mem_cons_self _ _)
      cases hr : fleetCarResolve gd gp did with
      | error e =>
          cases e with
          | unconfigured => exact absurd hr hhead
          | other =>
              simp [fleetLoop, hr, ih hrest, fleetEntryOf]
      | ok stpos =>
          obtain ⟨st, pos⟩ := stpos
          simp [fleetLoop, hr, ih hrest, fleetEntryOf]

theorem fleetLoop_eq_none (gd : GetDevice) (gp : GetRawPosition)
    (cars : List (Car × Int))
    (h : ∃ p ∈ cars, fleetCarResolve gd gp p.2 = Except.error TraccarErr.unconfigured) :
    fleetLoop gd gp cars = none := by
  induction cars with
  | nil => simp at h
  | cons p rest ih =>
      obtain ⟨car, did⟩ := p
      rcases h with ⟨q, hq, hres⟩
      rcases List.mem_cons.mp hq with heq | hmem
      · subst heq
        simp [fleetLoop, hres]
      · cases hr : fleetCarResolve gd gp did with
        | error e =>
            cases e with
            | unconfigured => simp [fleetLoop, hr]
            | other => simp [fleetLoop, hr, ih ⟨q, hmem, hres⟩]
        | ok stpos =>
            obtain ⟨st, pos⟩ := stpos
            simp [fleetLoop, hr, ih ⟨q, hmem, hres⟩]

/-- C3: when the rate-limit gate admits and no vehicle's resolution raises
the distinguished "unconfigured" condition, the fully-processed fleet
response is top-level `ok` (HTTP 200) and its per-vehicle entries are
exactly the loaded mapped vehicles, in load order, each carrying its own
outcome — with a vehicle whose resolution failed with a non-"unconfigured"
provider error contributing its own `traccar_error` entry. -/
theorem C3_fleet_failure_isolation (i : Nat) (adminId : String) (now : Nat)
    (L : Ledger) (allCars : List Car) (gd : GetDevice) (gp : GetRawPosition)
    (hgate : (enforceRateLimit (i * 1000) adminId "fleet" now L).1 = true)
    (hnc : ∀ p ∈ fleetQuery allCars,
        fleetCarResolve gd gp p.2 ≠ Except.error TraccarErr.unconfigured) :
    (getFleetTracking i adminId now L allCars gd gp).1.status = TrackingStatus.okS
    ∧ (getFleetTracking i adminId now L allCars gd gp).1.httpStatus = 200
    ∧ (getFleetTracking i adminId now L allCars gd gp).1.cars
        = (fleetQuery allCars).map (fleetEntryOf gd gp)
    ∧ (∀ p ∈ fleetQuery allCars,
        fleetCarResolve gd gp p.2 = Except.error TraccarErr.other →
        fleetEntryOf gd gp p = ⟨mapCar p.1, TrackingStatus.traccar_error, none⟩) := by
  have hloop := fleetLoop_eq_map gd gp (fleetQuery allCars) hnc
  refine ⟨?_, ?_, ?_, ?_⟩
  · simp [getFleetTracking, hgate, hloop]
  · simp [getFleetTracking, hgate, hloop]
  · simp [getFleetTracking, hgate, hloop]
  · intro p _hp hres
    simp [fleetEntryOf, hres]

/-- C4: if the rate-limit gate admits and resolving any mapped vehicle
raises the distinguished "provider unconfigured" condition, the whole fleet
request returns top-level `traccar_not_configured` (HTTP 503) with an empty
vehicle list, independent of how many vehicles are mapped and of how many
were already processed. -/
theorem C4_fleet_unconfigured_short_circuit (i : Nat) (adminId : String) (now : Nat)
    (L : Ledger) (allCars : List Car) (gd : GetDevice) (gp : GetRawPosition)
    (hgate : (enforceRateLimit (i * 1000) adminId "fleet" now L).1 = true)
    (hex : ∃ p ∈ fleetQuery allCars,
        fleetCarResolve gd gp p.2 = Except.error TraccarErr.unconfigured) :
    (getFleetTracking i adminId now L allCars gd gp).1
      = ⟨503, TrackingStatus.traccar_not_configured, i, []⟩ := by
  have hloop := fleetLoop_eq_none gd gp (fleetQuery allCars) hex
  simp [getFleetTracking, hgate, hloop]

theorem fleetLoop_status_closed (gd : GetDevice) (gp : GetRawPosition)
    (cars : List (Car × Int)) (entries : List FleetEntry)
    (h : fleetLoop gd gp cars = some entries) :
    ∀ e ∈ entries,
      e.status = TrackingStatus.okS ∨ e.status = TrackingStatus.no_fix_yet
        ∨ e.status = TrackingStatus.device_not_found
        ∨ e.status = TrackingStatus.traccar_error := by
  induction cars generalizing entries with
  | nil =>
      simp only [fleetLoop, Option.some.injEq] at h
      subst h
      intro e he
      simp at he
  | cons p rest ih =>
      obtain ⟨car, did⟩ := p
      cases hr : fleetCarResolve gd gp did with
      | error e =>
          cases e with
          | unconfigured => simp [fleetLoop, hr] at h
          | other =>
              simp only [fleetLoop, hr, Option.map_eq_some'] at h
              obtain ⟨tl, htl, hcons⟩ := h
              subst hcons
              intro e he
              rcases List.mem_cons.mp he with heq | hmem
              · subst heq
                exact Or.inr (Or.inr (Or.inr rfl))
              · exact ih tl htl e hmem
      | ok stpos =>
          obtain ⟨st, pos⟩ := stpos
          simp only [fleetLoop, hr, Option.map_eq_some'] at h
          obtain ⟨tl, htl, hcons⟩ := h
          subst hcons
          intro e he
          rcases List.mem_cons.mp he with heq | hmem
          · subst heq
            have hst : st = TrackingStatus.okS ∨ st = TrackingStatus.no_fix_yet
                ∨ st = TrackingStatus.device_not_found := by
              unfold fleetCarResolve at hr
              split at hr
              · exact absurd hr (by simp)
              · rcases hr with ⟨rfl, _⟩
                exact Or.inr (Or.inr rfl)
              · split at hr
                · rcases hr with ⟨rfl, _⟩
                  exact Or.inr (Or.inl rfl)
                · split at hr
                  · rcases hr with ⟨rfl, _⟩
                    exact Or.inr (Or.inl rfl)
                  · split at hr
                    · exact absurd hr (by simp)
                    · rcases hr with ⟨rfl, _⟩
                      exact Or.inr (Or.inl rfl)
                    · rcases hr with ⟨rfl, _⟩
                      exact Or.inl rfl
            rcases hst with h1 | h1 | h1 <;> simp [h1]
          · exact ih tl htl e hmem

/-- C10: every per-vehicle entry of a fleet response has one of exactly the
four statuses `ok`, `no_fix_yet`, `device_not_found`, `traccar_error`;
`not_mapped`, `car_not_found`, `rate_limited` and `traccar_not_configured`
never appear as a per-vehicle status (the latter four responses all carry an
empty vehicle list). -/
theorem C10_fleet_entry_status_closed (i : Nat) (adminId : String) (now : Nat)
    (L : Ledger) (allCars : List Car) (gd : GetDevice) (gp : GetRawPosition) :
    ∀ e ∈ (getFleetTracking i adminId now L allCars gd gp).1.cars,
      e.status = TrackingStatus.okS ∨ e.status = TrackingStatus.no_fix_yet
        ∨ e.status = TrackingStatus.device_not_found
        ∨ e.status = TrackingStatus.traccar_error := by
  intro e he
  cases hrl : (enforceRateLimit (i * 1000) adminId "fleet" now L).1 with
  | false => simp [getFleetTracking, hrl] at he
  | true =>
      cases hloop : fleetLoop gd gp (fleetQuery allCars) with
      | none => simp [getFleetTracking, hrl, hloop] at he
      | some entries =>
          simp only [getFleetTracking, hrl, hloop] at he
          simp at he
          exact fleetLoop_status_closed gd gp (fleetQuery allCars) entries hloop e he

/-! ## Concrete fleet scenario used by the C3 / C4 / C10 witnesses -/

def wCar1 : Car := { id := "w1", name := "W1", licensePlate := none,
                     traccarDeviceId := some 1, traccarUniqueId := none }

def wCar2 : Car := { id := "w2", name := "W2", licensePlate := none,
                     traccarDeviceId := some 2, traccarUniqueId := none }

def wCar3 : Car := { id := "w3", name := "W3", licensePlate := none,
                     traccarDeviceId := some 3, traccarUniqueId := none }

/-- A device that has never reported a fix. -/
def wDeviceNoFix : TraccarDevice := { id := 1, uniqueId := none, positionId := none, name := none }

/-- Device oracle: device 1 exists with no fix, device 2 fails with a
transient provider error, any other id is unknown to the provider. -/
def wGetDevice : GetDevice := fun d =>
  if d = 1 then Except.ok (some wDeviceNoFix)
  else if d = 2 then Except.error TraccarErr.other
  else Except.ok none

/-- Witness for C3: three mapped vehicles, the second failing with a
transient provider error — top-level `ok`, per-vehicle entries in load order
with the failing vehicle's own `traccar_error` entry. -/
theorem C3_fleet_failure_isolation_witness :
    (getFleetTracking 5 "admin" 9 Ledger.empty [wCar1, wCar2, wCar3]
        wGetDevice demoGetRawPos).1.status = TrackingStatus.okS
    ∧ (getFleetTracking 5 "admin" 9 Ledger.empty [wCar1, wCar2, wCar3]
        wGetDevice demoGetRawPos).1.httpStatus = 200
    ∧ (getFleetTracking 5 "admin" 9 Ledger.empty [wCar1, wCar2, wCar3]
        wGetDevice demoGetRawPos).1.cars
        = (fleetQuery [wCar1, wCar2, wCar3]).map (fleetEntryOf wGetDevice demoGetRawPos)
    ∧ (∀ p ∈ fleetQuery [wCar1, wCar2, wCar3],
        fleetCarResolve wGetDevice demoGetRawPos p.2 = Except.error TraccarErr.other →
        fleetEntryOf wGetDevice demoGetRawPos p
          = ⟨mapCar p.1, TrackingStatus.traccar_error, none⟩) :=
  C3_fleet_failure_isolation 5 "admin" 9 Ledger.empty [wCar1, wCar2, wCar3]
    wGetDevice demoGetRawPos rfl (by decide)

/-- Witness for C4: one mapped vehicle whose resolution raises the
"unconfigured" condition — top-level `traccar_not_configured`, empty list. -/
theorem C4_fleet_unconfigured_short_circuit_witness :
    (getFleetTracking 5 "admin" 9 Ledger.empty [wCar1]
        (fun _ => Except.error TraccarErr.unconfigured) demoGetRawPos).1
      = ⟨503, TrackingStatus.traccar_not_configured, 5, []⟩ :=
  C4_fleet_unconfigured_short_circuit 5 "admin" 9 Ledger.empty [wCar1]
    (fun _ => Except.error TraccarErr.unconfigured) demoGetRawPos rfl
    ⟨(wCar1, 1), by decide, rfl⟩

/-- Witness for C10: the `no_fix_yet` entry of the concrete fleet scenario
satisfies the closed per-vehicle status set. -/
theorem C10_fleet_entry_status_closed_witness :
    (⟨mapCar wCar1, TrackingStatus.no_fix_yet, none⟩ : FleetEntry).status
        = TrackingStatus.okS
    ∨ (⟨mapCar wCar1, TrackingStatus.no_fix_yet, none⟩ : FleetEntry).status
        = TrackingStatus.no_fix_yet
    ∨ (⟨mapCar wCar1, TrackingStatus.no_fix_yet, none⟩ : FleetEntry).status
        = TrackingStatus.device_not_found
    ∨ (⟨mapCar wCar1, TrackingStatus.no_fix_yet, none⟩ : FleetEntry).status
        = TrackingStatus.traccar_error :=
  C10_fleet_entry_status_closed 5 "admin" 9 Ledger.empty [wCar1, wCar2, wCar3]
    wGetDevice demoGetRawPos ⟨mapCar wCar1, TrackingStatus.no_fix_yet, none⟩
    (by decide)

/-! ## C8: pollAfterSeconds invariant -/

theorem carResolve_pollAfterSeconds (i : Nat) (gd : GetDevice) (gp : GetRawPosition)
    (car : Car) (resp : CarResponse) (h : carResolve i gd gp car = Except.ok resp) :
    resp.pollAfterSeconds = i := by
  unfold carResolve at h
  repeat' split at h
  all_goals first
    | (cases h; rfl)
    | simp at h

/-- C8: for every request to either endpoint — every branch, success or
failure — the response payload carries `pollAfterSeconds` equal to the
configured minimum poll interval `env.TRACCAR_MIN_POLL_INTERVAL || 5`. -/
theorem C8_poll_after_seconds (envMinPoll : Nat) (carIdValid : Bool)
    (carId adminId : String) (now : Nat) (L : Ledger) (findCar : Option Car)
    (allCars : List Car) (gd : GetDevice) (gp : GetRawPosition) :
    (getCarTracking (pollIntervalSeconds envMinPoll) carIdValid carId adminId now L
        findCar gd gp).1.pollAfterSeconds = pollIntervalSeconds envMinPoll
    ∧ (getFleetTracking (pollIntervalSeconds envMinPoll) adminId now L allCars
        gd gp).1.pollAfterSeconds = pollIntervalSeconds envMinPoll := by
  constructor
  · simp only [getCarTracking]
    split
    · rfl
    · split
      · rfl
      · split
        · rfl
        · split
          · next resp heq => exact carResolve_pollAfterSeconds _ _ _ _ _ heq
          · rfl
          · rfl
  · simp only [getFleetTracking]
    split
    · rfl
    · split
      · rfl
      · rfl

/-! ## C9: zero device id — endpoints disagree -/

/-- C9: for a vehicle whose provider device id is present but equal to `0`,
the single-vehicle endpoint returns `not_mapped` for EVERY provider oracle
(the provider is never contacted), while the fleet endpoint's mapped-vehicle
query (`$exists: true, $ne: null`) still selects the vehicle and the fleet
loop contacts the provider for device id `0` — here the provider answers
with a device and a position, and the vehicle's fleet entry is `ok` with
that position. -/
theorem C9_zero_device_id_disagreement :
    (∀ (gd : GetDevice) (gp : GetRawPosition),
        (getCarTracking (pollIntervalSeconds 0) true "c0" "a" 1 Ledger.empty
            (some zeroDeviceCar) gd gp).1.status = TrackingStatus.not_mapped)
    ∧ fleetQuery [zeroDeviceCar] = [(zeroDeviceCar, 0)]
    ∧ (getFleetTracking (pollIntervalSeconds 0) "a" 1 Ledger.empty [zeroDeviceCar]
        demoGetDevice demoGetRawPos).1.cars
        = [⟨mapCar zeroDeviceCar, TrackingStatus.okS,
            some (normalizePosition demoRawPos)⟩] := by
  refine ⟨fun gd gp => rfl, rfl, rfl⟩

end Tracking
